import Mathlib

/-!
Shallow embedding of `power-usage-analysis.py` (NS Power time-of-use
calculator) and verification of its specification claims.

Modelling choices:
* Usage amounts and rates are exact rationals (`ℚ`); the Python code uses
  IEEE doubles, but every claimed relation is algebraic and the spec treats
  rounding as a presentation concern.
* A pandas data frame row becomes a `UsageRecord`; the derived columns
  `df["month"]` and `df["hour"]` become `monthOf` / `hourOf` (the `%H:%M`
  parse keeps hour and discards nothing, and `.dt.hour` truncates minutes).
* A raised Python exception is `Option.none`; numpy's silent non-finite
  result (NaN / Infinity) of a float division by zero is modelled by the
  `Option ℚ` value `none` in the percentage fields.
-/

namespace PowerUsage

/-- Rate constant from the source: `RATE_WINTER_PEAK = 0.34634` ($/kWh). -/
def RATE_WINTER_PEAK : ℚ := 34634 / 100000

/-- Rate constant from the source: `RATE_WINTER_OFF_PEAK = 0.17703` ($/kWh). -/
def RATE_WINTER_OFF_PEAK : ℚ := 17703 / 100000

/-- Rate constant from the source: `RATE_SUMMER = 0.12198` ($/kWh). -/
def RATE_SUMMER : ℚ := 12198 / 100000

/-- Rate constant from the source: `RATE_FIXED = 0.17703` ($/kWh). -/
def RATE_FIXED : ℚ := 17703 / 100000

/-- A parsed timestamp, as produced by
`pd.to_datetime(df["DATE"] + " " + df["START TIME"], format="%m/%d/%Y %H:%M")`:
the CSV carries month, day, year, hour and minute. -/
structure Timestamp where
  year : ℕ
  month : ℕ
  day : ℕ
  hour : ℕ
  minute : ℕ
deriving DecidableEq

/-- One row of the tabular part of the CSV: a timestamp, the `USAGE` value
and the `UNITS` string. -/
structure UsageRecord where
  timestamp : Timestamp
  usage : ℚ
  units : String
deriving DecidableEq

/-- The derived column `df["month"] = df["datetime"].dt.month`. -/
def monthOf (r : UsageRecord) : ℕ := r.timestamp.month

/-- The derived column `df["hour"] = df["datetime"].dt.hour`: the hour of the
timestamp, with the minute truncated away. -/
def hourOf (r : UsageRecord) : ℕ := r.timestamp.hour

/-- `winter_months = [11, 12, 1, 2, 3]` from the source. -/
def winter_months : List ℕ := [11, 12, 1, 2, 3]

/-- `peak_hours = list(range(7, 11)) + list(range(17, 21))` from the source. -/
def peak_hours : List ℕ := List.range' 7 4 ++ List.range' 17 4

/-- `summer_months = [4, 5, 6, 7, 8, 9, 10]` from the source. -/
def summer_months : List ℕ := [4, 5, 6, 7, 8, 9, 10]

/-- The boolean mask
`(df["month"].isin(winter_months)) & (df["hour"].isin(peak_hours))`. -/
def winterPeakMask (r : UsageRecord) : Bool :=
  winter_months.contains (monthOf r) && peak_hours.contains (hourOf r)

/-- The boolean mask
`(df["month"].isin(winter_months)) & (~df["hour"].isin(peak_hours))`. -/
def winterOffPeakMask (r : UsageRecord) : Bool :=
  winter_months.contains (monthOf r) && !(peak_hours.contains (hourOf r))

/-- The boolean mask `df["month"].isin(summer_months)`. -/
def summerMask (r : UsageRecord) : Bool :=
  summer_months.contains (monthOf r)

/-- `series["USAGE"].sum()`: the sum of the usage values of a row list. -/
def usageSum (df : List UsageRecord) : ℚ := (df.map (·.usage)).sum

/-- `winter_peak`: the usage sum over rows selected by the winter-peak mask. -/
def winter_peak (df : List UsageRecord) : ℚ := usageSum (df.filter winterPeakMask)

/-- `winter_off_peak`: the usage sum over rows selected by the
winter-off-peak mask. -/
def winter_off_peak (df : List UsageRecord) : ℚ := usageSum (df.filter winterOffPeakMask)

/-- `summer_all`: the usage sum over rows whose month is a summer month. -/
def summer_all (df : List UsageRecord) : ℚ := usageSum (df.filter summerMask)

/-- `total_usage = df["USAGE"].sum()`. -/
def total_usage (df : List UsageRecord) : ℚ := usageSum df

/-- Whether the character list `pat` occurs at the head of `s`. -/
def leadMatch : List Char → List Char → Bool
  | [], _ => true
  | _ :: _, [] => false
  | a :: as, b :: bs => a == b && leadMatch as bs

/-- Whether the character list `pat` occurs as a contiguous sublist of `s`. -/
def hasSub (pat : List Char) : List Char → Bool
  | [] => pat.isEmpty
  | c :: rest => leadMatch pat (c :: rest) || hasSub pat rest

/-- Python's substring test `pat in s` for a non-empty pattern string. -/
def strContains (s pat : String) : Bool := hasSub pat.data s.data

/-- The global conversion decision
`conversion = 1000 if "Wh" in df["UNITS"].iloc[0] else 1`.
`iloc[0]` on an empty frame raises `IndexError`, modelled as `none`. -/
def conversion (df : List UsageRecord) : Option ℚ :=
  match df with
  | [] => none
  | r :: _ => some (if strContains r.units "Wh" then 1000 else 1)

/-- A float division `a / b * 100` as numpy performs it in the percentage
fields: when `b = 0` the float result is NaN (or ±Infinity), a non-finite
value modelled here as `none`; otherwise the exact quotient times 100. -/
def pctOf (a b : ℚ) : Option ℚ := if b = 0 then none else some (a / b * 100)

/-- The `results` dictionary built by `analyze_power_usage` (without the
metadata mapping, which is pass-through I/O). -/
structure AnalysisResult where
  winter_peak_usage : ℚ
  winter_off_peak_usage : ℚ
  summer_usage : ℚ
  total_usage : ℚ
  winter_peak_percentage : Option ℚ
  winter_off_peak_percentage : Option ℚ
  summer_percentage : Option ℚ
  winter_peak_cost : ℚ
  winter_off_peak_cost : ℚ
  summer_cost : ℚ
  total_time_of_use_cost : ℚ
  total_fixed_rate_cost : ℚ
  savings : ℚ
deriving DecidableEq

/-- The core of `analyze_power_usage` (lines 38–136 of the source), applied
to the already-parsed row list.  `none` models a raised exception: the only
raise inside the core is `iloc[0]` on an empty frame. -/
def analyze_power_usage (df : List UsageRecord) : Option AnalysisResult :=
  match conversion df with
  | none => none
  | some conv =>
    let wp := winter_peak df
    let wop := winter_off_peak df
    let sa := summer_all df
    let tot := total_usage df
    let winter_peak_kwh := wp / conv
    let winter_off_peak_kwh := wop / conv
    let summer_kwh := sa / conv
    let total_kwh := tot / conv
    let winter_peak_cost := winter_peak_kwh * RATE_WINTER_PEAK
    let winter_off_peak_cost := winter_off_peak_kwh * RATE_WINTER_OFF_PEAK
    let summer_cost := summer_kwh * RATE_SUMMER
    let total_time_of_use_cost := winter_peak_cost + winter_off_peak_cost + summer_cost
    let total_fixed_rate_cost := total_kwh * RATE_FIXED
    some {
      winter_peak_usage := winter_peak_kwh
      winter_off_peak_usage := winter_off_peak_kwh
      summer_usage := summer_kwh
      total_usage := total_kwh
      winter_peak_percentage := pctOf wp tot
      winter_off_peak_percentage := pctOf wop tot
      summer_percentage := pctOf sa tot
      winter_peak_cost := winter_peak_cost
      winter_off_peak_cost := winter_off_peak_cost
      summer_cost := summer_cost
      total_time_of_use_cost := total_time_of_use_cost
      total_fixed_rate_cost := total_fixed_rate_cost
      savings := total_fixed_rate_cost - total_time_of_use_cost
    }

/-- A derived single-bucket view of the three pandas masks: the bucket that
claims a record, when one does. -/
inductive Bucket where
  | WinterPeak
  | WinterOffPeak
  | SummerAll
deriving DecidableEq

/-- The bucket a record falls into under the three masks of the source
(`none` when no mask selects it, which needs a month outside 1..12). -/
def bucketOf (r : UsageRecord) : Option Bucket :=
  if winterPeakMask r then some .WinterPeak
  else if winterOffPeakMask r then some .WinterOffPeak
  else if summerMask r then some .SummerAll
  else none

/-- Outcome of the body of `main`'s try block: either an analysis result
was produced and formatted, or some exception with a message was caught. -/
inductive RunOutcome where
  | ok (res : AnalysisResult)
  | err (msg : String)

/-- The return value of the Python function `main()`:
0 when processing succeeds, 1 when the `except` branch runs. -/
def mainReturnValue (o : RunOutcome) : ℕ :=
  match o with
  | .ok _ => 0
  | .err _ => 1

/-- What `main()` prints on its error path:
`print(f"Error processing file: {e}")` goes to standard output. -/
def mainErrorOutput (o : RunOutcome) : List String :=
  match o with
  | .ok _ => []
  | .err msg => ["Error processing file: " ++ msg]

/-- The process exit code of the script.  Line 206 is plainly `main()` —
the return value of `main` is discarded, there is no `sys.exit`, and a
CPython script that runs to completion without an uncaught exception exits
with status 0, whatever `main` returned. -/
def processExitCode (o : RunOutcome) : ℕ :=
  let _ := mainReturnValue o
  0

/-! Helper lemmas shared by the claim theorems. -/

lemma month_mem_partition (m : ℕ) (h1 : 1 ≤ m) (h2 : m ≤ 12) :
    m ∈ summer_months ↔ m ∉ winter_months := by
  interval_cases m <;> decide

lemma mask_trichotomy (r : UsageRecord) (h1 : 1 ≤ monthOf r) (h2 : monthOf r ≤ 12) :
    [winterPeakMask r, winterOffPeakMask r, summerMask r].count true = 1 := by
  have hms := month_mem_partition (monthOf r) h1 h2
  by_cases hw : monthOf r ∈ winter_months <;>
    by_cases hp : hourOf r ∈ peak_hours <;>
      simp [winterPeakMask, winterOffPeakMask, summerMask, hw, hp, hms]

lemma sums_partition (df : List UsageRecord)
    (hv : ∀ r ∈ df, 1 ≤ monthOf r ∧ monthOf r ≤ 12) :
    winter_peak df + winter_off_peak df + summer_all df = total_usage df := by
  induction df with
  | nil => simp [winter_peak, winter_off_peak, summer_all, total_usage, usageSum]
  | cons r l ih =>
    have hr := hv r (List.mem_cons_self r l)
    have hl : ∀ x ∈ l, 1 ≤ monthOf x ∧ monthOf x ≤ 12 :=
      fun x hx => hv x (List.mem_cons_of_mem r hx)
    have hms := month_mem_partition (monthOf r) hr.1 hr.2
    have ih' := ih hl
    simp only [winter_peak, winter_off_peak, summer_all, total_usage, usageSum,
      List.filter_cons] at ih' ⊢
    by_cases hw : monthOf r ∈ winter_months <;>
      by_cases hp : hourOf r ∈ peak_hours <;>
        simp [winterPeakMask, winterOffPeakMask, summerMask, hw, hp, hms] <;>
        linarith [ih']

lemma analyze_cons (r : UsageRecord) (rest : List UsageRecord) :
    analyze_power_usage (r :: rest) =
      some {
        winter_peak_usage :=
          winter_peak (r :: rest) / (if strContains r.units "Wh" then (1000 : ℚ) else 1)
        winter_off_peak_usage :=
          winter_off_peak (r :: rest) / (if strContains r.units "Wh" then (1000 : ℚ) else 1)
        summer_usage :=
          summer_all (r :: rest) / (if strContains r.units "Wh" then (1000 : ℚ) else 1)
        total_usage :=
          total_usage (r :: rest) / (if strContains r.units "Wh" then (1000 : ℚ) else 1)
        winter_peak_percentage := pctOf (winter_peak (r :: rest)) (total_usage (r :: rest))
        winter_off_peak_percentage := pctOf (winter_off_peak (r :: rest)) (total_usage (r :: rest))
        summer_percentage := pctOf (summer_all (r :: rest)) (total_usage (r :: rest))
        winter_peak_cost :=
          winter_peak (r :: rest) / (if strContains r.units "Wh" then (1000 : ℚ) else 1) *
            RATE_WINTER_PEAK
        winter_off_peak_cost :=
          winter_off_peak (r :: rest) / (if strContains r.units "Wh" then (1000 : ℚ) else 1) *
            RATE_WINTER_OFF_PEAK
        summer_cost :=
          summer_all (r :: rest) / (if strContains r.units "Wh" then (1000 : ℚ) else 1) *
            RATE_SUMMER
        total_time_of_use_cost :=
          winter_peak (r :: rest) / (if strContains r.units "Wh" then (1000 : ℚ) else 1) *
              RATE_WINTER_PEAK +
            winter_off_peak (r :: rest) / (if strContains r.units "Wh" then (1000 : ℚ) else 1) *
              RATE_WINTER_OFF_PEAK +
            summer_all (r :: rest) / (if strContains r.units "Wh" then (1000 : ℚ) else 1) *
              RATE_SUMMER
        total_fixed_rate_cost :=
          total_usage (r :: rest) / (if strContains r.units "Wh" then (1000 : ℚ) else 1) *
            RATE_FIXED
        savings :=
          total_usage (r :: rest) / (if strContains r.units "Wh" then (1000 : ℚ) else 1) *
              RATE_FIXED -
            (winter_peak (r :: rest) / (if strContains r.units "Wh" then (1000 : ℚ) else 1) *
                RATE_WINTER_PEAK +
              winter_off_peak (r :: rest) / (if strContains r.units "Wh" then (1000 : ℚ) else 1) *
                RATE_WINTER_OFF_PEAK +
              summer_all (r :: rest) / (if strContains r.units "Wh" then (1000 : ℚ) else 1) *
                RATE_SUMMER) } := rfl

/-! Claim theorems. -/

/-- C1, counterexample: the claim says a first record whose declared unit
denotes kWh leaves the aggregates unscaled, but the source test
`"Wh" in df["UNITS"].iloc[0]` is a substring test and the string `"kWh"`
contains `"Wh"`, so a single 2-unit record declared `"kWh"` comes back with
`total_usage` 2/1000, not 2. -/
theorem c1_kwh_is_scaled_counterexample :
    strContains "kWh" "Wh" = true ∧
    (analyze_power_usage [⟨⟨2024, 11, 15, 8, 0⟩, 2, "kWh"⟩]).map (fun a => a.total_usage) =
      some (2 / 1000) ∧
    ((2 : ℚ) / 1000) ≠ 2 := by
  have hu : strContains "kWh" "Wh" = true := by decide
  refine ⟨hu, ?_, by norm_num⟩
  norm_num [analyze_power_usage, conversion, total_usage, usageSum, hu]

/-- C1, amended: every aggregate (each bucket sum and the total) is divided
by 1000 exactly when the first record's unit string contains `"Wh"` as a
case-sensitive substring — which holds for `"kWh"` as well as `"Wh"` — and
is left unscaled only when the unit string does not contain `"Wh"`. -/
theorem c1_unit_scaling (df : List UsageRecord) (r : UsageRecord) (rest : List UsageRecord)
    (hdf : df = r :: rest) :
    ∃ res, analyze_power_usage df = some res ∧
      (strContains r.units "Wh" = true →
        res.winter_peak_usage = winter_peak df / 1000 ∧
        res.winter_off_peak_usage = winter_off_peak df / 1000 ∧
        res.summer_usage = summer_all df / 1000 ∧
        res.total_usage = total_usage df / 1000) ∧
      (strContains r.units "Wh" = false →
        res.winter_peak_usage = winter_peak df ∧
        res.winter_off_peak_usage = winter_off_peak df ∧
        res.summer_usage = summer_all df ∧
        res.total_usage = total_usage df) := by
  subst hdf
  refine ⟨_, analyze_cons r rest, ?_, ?_⟩ <;> intro hu <;> simp [hu]

/-- Witness for `c1_unit_scaling` at the one-record list with unit `"Wh"`. -/
theorem c1_unit_scaling_witness :
    ∃ res, analyze_power_usage [⟨⟨2024, 11, 15, 8, 0⟩, 2, "Wh"⟩] = some res ∧
      (strContains (⟨⟨2024, 11, 15, 8, 0⟩, 2, "Wh"⟩ : UsageRecord).units "Wh" = true →
        res.winter_peak_usage = winter_peak [⟨⟨2024, 11, 15, 8, 0⟩, 2, "Wh"⟩] / 1000 ∧
        res.winter_off_peak_usage = winter_off_peak [⟨⟨2024, 11, 15, 8, 0⟩, 2, "Wh"⟩] / 1000 ∧
        res.summer_usage = summer_all [⟨⟨2024, 11, 15, 8, 0⟩, 2, "Wh"⟩] / 1000 ∧
        res.total_usage = total_usage [⟨⟨2024, 11, 15, 8, 0⟩, 2, "Wh"⟩] / 1000) ∧
      (strContains (⟨⟨2024, 11, 15, 8, 0⟩, 2, "Wh"⟩ : UsageRecord).units "Wh" = false →
        res.winter_peak_usage = winter_peak [⟨⟨2024, 11, 15, 8, 0⟩, 2, "Wh"⟩] ∧
        res.winter_off_peak_usage = winter_off_peak [⟨⟨2024, 11, 15, 8, 0⟩, 2, "Wh"⟩] ∧
        res.summer_usage = summer_all [⟨⟨2024, 11, 15, 8, 0⟩, 2, "Wh"⟩] ∧
        res.total_usage = total_usage [⟨⟨2024, 11, 15, 8, 0⟩, 2, "Wh"⟩]) :=
  c1_unit_scaling _ ⟨⟨2024, 11, 15, 8, 0⟩, 2, "Wh"⟩ [] rfl

/-- C2: the claim says a zero-total input fails with an explicit
EmptyInputError, but the source has no such check: the empty frame aborts
only incidentally (`iloc[0]` raises `IndexError`), and a non-empty frame
whose usage values sum to zero is analyzed to completion, its three
percentage fields being the non-finite float (NaN) that numpy's division
by zero produces, modelled as `none`. -/
theorem c2_zero_total_yields_nan_result :
    analyze_power_usage [] = none ∧
    (analyze_power_usage [⟨⟨2024, 11, 15, 8, 0⟩, 0, "kWh"⟩]).isSome = true ∧
    (analyze_power_usage [⟨⟨2024, 11, 15, 8, 0⟩, 0, "kWh"⟩]).map
      (fun a => a.winter_peak_percentage) = some none ∧
    (analyze_power_usage [⟨⟨2024, 11, 15, 8, 0⟩, 0, "kWh"⟩]).map
      (fun a => a.winter_off_peak_percentage) = some none ∧
    (analyze_power_usage [⟨⟨2024, 11, 15, 8, 0⟩, 0, "kWh"⟩]).map
      (fun a => a.summer_percentage) = some none := by
  have hu : strContains "kWh" "Wh" = true := by decide
  have ht : total_usage [(⟨⟨2024, 11, 15, 8, 0⟩, 0, "kWh"⟩ : UsageRecord)] = 0 := by
    norm_num [total_usage, usageSum]
  refine ⟨rfl, ?_, ?_, ?_, ?_⟩ <;>
    simp [analyze_power_usage, conversion, hu, pctOf, ht]

/-- C3: each record's bucket is the stated deterministic function of its
month and hour: winter month and peak hour give WinterPeak, winter month
and non-peak hour give WinterOffPeak, and a summer month gives SummerAll. -/
theorem c3_bucket_rule (r : UsageRecord) :
    (monthOf r ∈ [11, 12, 1, 2, 3] ∧ hourOf r ∈ [7, 8, 9, 10, 17, 18, 19, 20] →
      bucketOf r = some Bucket.WinterPeak) ∧
    (monthOf r ∈ [11, 12, 1, 2, 3] ∧ hourOf r ∉ [7, 8, 9, 10, 17, 18, 19, 20] →
      bucketOf r = some Bucket.WinterOffPeak) ∧
    (monthOf r ∈ [4, 5, 6, 7, 8, 9, 10] → bucketOf r = some Bucket.SummerAll) := by
  refine ⟨?_, ?_, ?_⟩
  · rintro ⟨hm, hh⟩
    have hm' : monthOf r ∈ winter_months := hm
    have hh' : hourOf r ∈ peak_hours := hh
    simp [bucketOf, winterPeakMask, hm', hh']
  · rintro ⟨hm, hh⟩
    have hm' : monthOf r ∈ winter_months := hm
    have hh' : hourOf r ∉ peak_hours := hh
    simp [bucketOf, winterPeakMask, winterOffPeakMask, hm', hh']
  · intro hm
    have hm' : monthOf r ∈ summer_months := hm
    have hw : monthOf r ∉ winter_months := by
      have h2 : monthOf r ∈ [4, 5, 6, 7, 8, 9, 10] := hm
      simp at h2
      rcases h2 with h | h | h | h | h | h | h <;> simp [winter_months, h]
    simp [bucketOf, winterPeakMask, winterOffPeakMask, summerMask, hm', hw]

/-- Witness for `c3_bucket_rule` at a concrete December peak-hour record. -/
theorem c3_bucket_rule_witness :
    bucketOf ⟨⟨2024, 12, 25, 18, 30⟩, 5, "Wh"⟩ = some Bucket.WinterPeak :=
  (c3_bucket_rule ⟨⟨2024, 12, 25, 18, 30⟩, 5, "Wh"⟩).1 ⟨by decide, by decide⟩

/-- C4: every record with a calendar month is claimed by exactly one of the
three masks, and the three bucket sums add up to the total usage exactly. -/
theorem c4_partition (df : List UsageRecord)
    (hv : ∀ r ∈ df, 1 ≤ monthOf r ∧ monthOf r ≤ 12) :
    (∀ r ∈ df, [winterPeakMask r, winterOffPeakMask r, summerMask r].count true = 1) ∧
    winter_peak df + winter_off_peak df + summer_all df = total_usage df :=
  ⟨fun r hr => mask_trichotomy r (hv r hr).1 (hv r hr).2, sums_partition df hv⟩

/-- Witness for `c4_partition` at the three-record example list. -/
theorem c4_partition_witness :
    winter_peak
        [⟨⟨2024, 11, 15, 8, 0⟩, 2, "kWh"⟩, ⟨⟨2024, 11, 15, 14, 0⟩, 1, "kWh"⟩,
          ⟨⟨2024, 6, 1, 12, 0⟩, 3, "kWh"⟩] +
      winter_off_peak
        [⟨⟨2024, 11, 15, 8, 0⟩, 2, "kWh"⟩, ⟨⟨2024, 11, 15, 14, 0⟩, 1, "kWh"⟩,
          ⟨⟨2024, 6, 1, 12, 0⟩, 3, "kWh"⟩] +
      summer_all
        [⟨⟨2024, 11, 15, 8, 0⟩, 2, "kWh"⟩, ⟨⟨2024, 11, 15, 14, 0⟩, 1, "kWh"⟩,
          ⟨⟨2024, 6, 1, 12, 0⟩, 3, "kWh"⟩] =
    total_usage
        [⟨⟨2024, 11, 15, 8, 0⟩, 2, "kWh"⟩, ⟨⟨2024, 11, 15, 14, 0⟩, 1, "kWh"⟩,
          ⟨⟨2024, 6, 1, 12, 0⟩, 3, "kWh"⟩] :=
  (c4_partition _ (by decide)).2

/-- C5: in every produced result, savings is the fixed-rate cost minus the
time-of-use cost, the time-of-use cost is the sum of the three per-bucket
costs, each bucket cost is the bucket's kWh times its rate, the fixed cost
is the total kWh times the fixed rate, and the sign of savings says which
billing model is cheaper. -/
theorem c5_savings_identity (df : List UsageRecord) (res : AnalysisResult)
    (h : analyze_power_usage df = some res) :
    res.savings = res.total_fixed_rate_cost - res.total_time_of_use_cost ∧
    res.total_time_of_use_cost =
      res.winter_peak_cost + res.winter_off_peak_cost + res.summer_cost ∧
    res.winter_peak_cost = res.winter_peak_usage * RATE_WINTER_PEAK ∧
    res.winter_off_peak_cost = res.winter_off_peak_usage * RATE_WINTER_OFF_PEAK ∧
    res.summer_cost = res.summer_usage * RATE_SUMMER ∧
    res.total_fixed_rate_cost = res.total_usage * RATE_FIXED ∧
    (0 < res.savings ↔ res.total_time_of_use_cost < res.total_fixed_rate_cost) ∧
    (res.savings < 0 ↔ res.total_fixed_rate_cost < res.total_time_of_use_cost) := by
  cases df with
  | nil => simp [analyze_power_usage, conversion] at h
  | cons r rest =>
    rw [analyze_cons] at h
    injection h with h
    subst h
    exact ⟨rfl, rfl, rfl, rfl, rfl, rfl, sub_pos, sub_neg⟩

/-- Witness for `c5_savings_identity` at a one-record list. -/
theorem c5_savings_identity_witness :
    ∃ res, analyze_power_usage [⟨⟨2024, 11, 15, 8, 0⟩, 2, "kWh"⟩] = some res ∧
      res.savings = res.total_fixed_rate_cost - res.total_time_of_use_cost :=
  ⟨_, analyze_cons _ _, (c5_savings_identity _ _ (analyze_cons _ _)).1⟩

/-- C6, counterexample: with the literal declared unit `"kWh"` of the claim,
the substring test `"Wh" in units` matches and the winter-peak aggregate of
the three-record scenario comes out as 2/1000 kWh, not the claimed 2.0. -/
theorem c6_kwh_scenario_counterexample :
    (analyze_power_usage
        [⟨⟨2024, 11, 15, 8, 0⟩, 2, "kWh"⟩, ⟨⟨2024, 11, 15, 14, 0⟩, 1, "kWh"⟩,
          ⟨⟨2024, 6, 1, 12, 0⟩, 3, "kWh"⟩]).map (fun a => a.winter_peak_usage) =
      some (2 / 1000) ∧
    ((2 : ℚ) / 1000) ≠ 2 := by
  have hu : strContains "kWh" "Wh" = true := by decide
  refine ⟨?_, by norm_num⟩
  norm_num [analyze_power_usage, conversion, total_usage, usageSum, winter_peak,
    winter_off_peak, summer_all, hu, winterPeakMask, winterOffPeakMask, summerMask,
    monthOf, hourOf, winter_months, peak_hours, summer_months, List.filter]

/-- C6, amended: for the three-record scenario (Nov 15 08:00, 2.0),
(Nov 15 14:00, 1.0), (Jun 1 12:00, 3.0) with a declared unit string that
does not contain `"Wh"` as a case-sensitive substring (here `"KWH"`, still
denoting kilowatt-hours), the analysis yields exactly the claimed figures:
bucket sums 2.0 / 1.0 / 3.0, total 6.0, costs 0.69268 / 0.17703 / 0.36594,
time-of-use total 1.23565, fixed-rate total 1.06218, savings −0.17347. -/
theorem c6_scenario :
    (analyze_power_usage
        [⟨⟨2024, 11, 15, 8, 0⟩, 2, "KWH"⟩, ⟨⟨2024, 11, 15, 14, 0⟩, 1, "KWH"⟩,
          ⟨⟨2024, 6, 1, 12, 0⟩, 3, "KWH"⟩]).map (fun a =>
      (a.winter_peak_usage, a.winter_off_peak_usage, a.summer_usage, a.total_usage,
       a.winter_peak_cost, a.winter_off_peak_cost, a.summer_cost,
       a.total_time_of_use_cost, a.total_fixed_rate_cost, a.savings)) =
    some (2, 1, 3, 6, 69268 / 100000, 17703 / 100000, 36594 / 100000,
      123565 / 100000, 106218 / 100000, -17347 / 100000) := by
  have hu : strContains "KWH" "Wh" = false := by decide
  norm_num [analyze_power_usage, conversion, total_usage, usageSum, winter_peak,
    winter_off_peak, summer_all, hu, winterPeakMask, winterOffPeakMask, summerMask,
    monthOf, hourOf, winter_months, peak_hours, summer_months, List.filter,
    RATE_WINTER_PEAK, RATE_WINTER_OFF_PEAK, RATE_SUMMER, RATE_FIXED]

/-- C7: the derived hour is the timestamp's 24-hour value with the minute
truncated away (the bucket never depends on the minute), and in a winter
month 10:59 is WinterPeak, 11:00 is WinterOffPeak, 16:59 is WinterOffPeak
and 17:00 is WinterPeak: a reading exactly on an hour boundary belongs to
that hour. -/
theorem c7_boundary_hours (y d : ℕ) (u : ℚ) (s : String) (m : ℕ)
    (hm : m ∈ [11, 12, 1, 2, 3]) :
    (∀ h mi : ℕ, hourOf ⟨⟨y, m, d, h, mi⟩, u, s⟩ = h) ∧
    bucketOf ⟨⟨y, m, d, 10, 59⟩, u, s⟩ = some Bucket.WinterPeak ∧
    bucketOf ⟨⟨y, m, d, 11, 0⟩, u, s⟩ = some Bucket.WinterOffPeak ∧
    bucketOf ⟨⟨y, m, d, 16, 59⟩, u, s⟩ = some Bucket.WinterOffPeak ∧
    bucketOf ⟨⟨y, m, d, 17, 0⟩, u, s⟩ = some Bucket.WinterPeak ∧
    (∀ h mi mi' : ℕ,
      bucketOf ⟨⟨y, m, d, h, mi⟩, u, s⟩ = bucketOf ⟨⟨y, m, d, h, mi'⟩, u, s⟩) := by
  fin_cases hm <;>
    exact ⟨fun h mi => rfl, rfl, rfl, rfl, rfl, fun h mi mi' => rfl⟩

/-- Witness for `c7_boundary_hours` in December. -/
theorem c7_boundary_hours_witness :
    bucketOf ⟨⟨2025, 12, 3, 10, 59⟩, 1, "Wh"⟩ = some Bucket.WinterPeak :=
  (c7_boundary_hours 2025 3 1 "Wh" 12 (by decide)).2.1

/-- C8: whenever the (pre-normalization) total is non-zero, each percentage
field is the bucket's pre-normalization sum over the pre-normalization
total times 100, and the three percentages sum to exactly 100 in exact
arithmetic. -/
theorem c8_percentages (df : List UsageRecord) (res : AnalysisResult)
    (h : analyze_power_usage df = some res)
    (hv : ∀ r ∈ df, 1 ≤ monthOf r ∧ monthOf r ≤ 12)
    (hnz : total_usage df ≠ 0) :
    res.winter_peak_percentage = some (winter_peak df / total_usage df * 100) ∧
    res.winter_off_peak_percentage = some (winter_off_peak df / total_usage df * 100) ∧
    res.summer_percentage = some (summer_all df / total_usage df * 100) ∧
    winter_peak df / total_usage df * 100 + winter_off_peak df / total_usage df * 100 +
      summer_all df / total_usage df * 100 = 100 := by
  cases df with
  | nil => simp [analyze_power_usage, conversion] at h
  | cons r rest =>
    rw [analyze_cons] at h
    injection h with h
    subst h
    have hsum := sums_partition (r :: rest) hv
    refine ⟨by simp [pctOf, hnz], by simp [pctOf, hnz], by simp [pctOf, hnz], ?_⟩
    field_simp
    linarith [hsum]

/-- Witness for `c8_percentages` at a one-record list with 2 kWh in a
winter peak hour. -/
theorem c8_percentages_witness :
    winter_peak [⟨⟨2024, 11, 15, 8, 0⟩, 2, "kWh"⟩] /
        total_usage [⟨⟨2024, 11, 15, 8, 0⟩, 2, "kWh"⟩] * 100 +
      winter_off_peak [⟨⟨2024, 11, 15, 8, 0⟩, 2, "kWh"⟩] /
        total_usage [⟨⟨2024, 11, 15, 8, 0⟩, 2, "kWh"⟩] * 100 +
      summer_all [⟨⟨2024, 11, 15, 8, 0⟩, 2, "kWh"⟩] /
        total_usage [⟨⟨2024, 11, 15, 8, 0⟩, 2, "kWh"⟩] * 100 = 100 :=
  (c8_percentages _ _ (analyze_cons _ _) (by decide)
    (by norm_num [total_usage, usageSum])).2.2.2

/-- C9: the Python function `main` does return 0 on success and 1 on a
caught processing error, printing `Error processing file: <message>` to
standard output; but line 206 discards that return value, so the process
exit code is 0 in the error case as well — the claim's exit-code contract
does not hold for the process. -/
theorem c9_exit_code_discarded :
    mainReturnValue (RunOutcome.err "No such file or directory") = 1 ∧
    mainErrorOutput (RunOutcome.err "No such file or directory") =
      ["Error processing file: No such file or directory"] ∧
    processExitCode (RunOutcome.err "No such file or directory") = 0 ∧
    processExitCode (RunOutcome.ok ⟨0, 0, 0, 0, none, none, none, 0, 0, 0, 0, 0, 0⟩) = 0 :=
  ⟨rfl, rfl, rfl, rfl⟩

/-- C10: the fixed rate equals the winter off-peak rate, the fixed-rate
cost prices the whole usage at the winter off-peak rate, and savings
reduces to winter-peak and summer terms only — the winter off-peak usage
amount cancels out of savings. -/
theorem c10_fixed_equals_off_peak (df : List UsageRecord) (res : AnalysisResult)
    (h : analyze_power_usage df = some res)
    (hv : ∀ r ∈ df, 1 ≤ monthOf r ∧ monthOf r ≤ 12) :
    RATE_FIXED = RATE_WINTER_OFF_PEAK ∧
    res.total_fixed_rate_cost = res.total_usage * RATE_WINTER_OFF_PEAK ∧
    res.savings = res.winter_peak_usage * (RATE_FIXED - RATE_WINTER_PEAK) +
      res.summer_usage * (RATE_FIXED - RATE_SUMMER) := by
  cases df with
  | nil => simp [analyze_power_usage, conversion] at h
  | cons r rest =>
    rw [analyze_cons] at h
    injection h with h
    subst h
    have hsum := sums_partition (r :: rest) hv
    refine ⟨rfl, rfl, ?_⟩
    simp only [RATE_FIXED, RATE_WINTER_PEAK, RATE_WINTER_OFF_PEAK, RATE_SUMMER]
    rw [← hsum]
    ring

/-- Witness for `c10_fixed_equals_off_peak` at a one-record list. -/
theorem c10_fixed_equals_off_peak_witness :
    ∃ res, analyze_power_usage [⟨⟨2024, 11, 15, 8, 0⟩, 2, "kWh"⟩] = some res ∧
      res.savings = res.winter_peak_usage * (RATE_FIXED - RATE_WINTER_PEAK) +
        res.summer_usage * (RATE_FIXED - RATE_SUMMER) :=
  ⟨_, analyze_cons _ _,
    (c10_fixed_equals_off_peak _ _ (analyze_cons _ _) (by decide)).2.2⟩

end PowerUsage
